import Mathlib

/-!
Verification of the audit pipeline of the request-verification gateway, retention
cleanup, stampede guard, TTL cache and redirect policy, as a shallow embedding
of the TypeScript sources (`server/routers/badger/logRequestAudit.ts`,
`server/db/queries/verifySessionQueries.ts`, `server/lib/cleanupLogs.ts`,
`server/lib/cache.ts`, `server/routers/badger/verifySession.ts`).
-/

namespace Pangolin

/-! ## Audit Batcher (server/routers/badger/logRequestAudit.ts)

The module-level mutable state of `logRequestAudit.ts` is modelled as an
explicit `BatcherState`.  Asynchronous storage writes are modelled by an
oracle `dbOk : Nat → Bool` giving the outcome of the n-th `db.insert`
attempt; timer callbacks (`setTimeout` retries, the 5s batch timer, the 30s
monitoring interval) are modelled as separate events on the state, so a
schedule of events interleaving records and timer firings corresponds to one
possible execution of the event loop. -/

def BATCH_SIZE : Nat := 100

def BATCH_INTERVAL_MS : Nat := 5000

def MAX_BUFFER_SIZE : Nat := 500

/-- The backoff `Math.min(1000 * Math.pow(2, retryCount), 30000)` from `flushAuditLogs`. -/
def backoffMs (retryCount : Nat) : Nat := min (1000 * 2 ^ retryCount) 30000

/-- Module-level state of `logRequestAudit.ts`: the audit buffer, the flush
timer flag, the failed-flush counter, a pending scheduled retry (the
`setTimeout` callback of a failed flush, carrying its `retryCount + 1`), the
number of `db.insert` attempts made so far (index into the outcome oracle),
and two observation logs: the batches successfully written and the batches
dropped after retry exhaustion (the "logs are lost" error path). -/
structure BatcherState (α : Type) where
  auditLogBuffer : List α
  flushTimerSet : Bool
  failedFlushCount : Nat
  pendingRetry : Option Nat
  attemptIx : Nat
  written : List (List α)
  droppedBatches : List (List α)
deriving Repr, DecidableEq

def initBatcher {α : Type} : BatcherState α :=
  { auditLogBuffer := []
    flushTimerSet := false
    failedFlushCount := 0
    pendingRetry := none
    attemptIx := 0
    written := []
    droppedBatches := [] }

/-- One call of `flushAuditLogs(retryCount, maxRetries)` up to (and including)
its single `db.insert` attempt: early return on empty buffer, splice the whole
buffer, attempt the bulk insert; on success record the batch and reset the
failure counter; on failure increment the failure counter and either unshift
the batch back and schedule a retry (`retryCount < maxRetries`) or drop the
batch. -/
def flushStep {α : Type} (dbOk : Nat → Bool) (retryCount maxRetries : Nat)
    (s : BatcherState α) : BatcherState α :=
  if s.auditLogBuffer.isEmpty then s
  else
    let logsToWrite := s.auditLogBuffer
    let s0 : BatcherState α :=
      { s with auditLogBuffer := [], attemptIx := s.attemptIx + 1 }
    if dbOk s.attemptIx then
      { s0 with written := s0.written ++ [logsToWrite], failedFlushCount := 0 }
    else
      let s1 : BatcherState α :=
        { s0 with failedFlushCount := s0.failedFlushCount + 1 }
      if retryCount < maxRetries then
        { s1 with
            auditLogBuffer := logsToWrite ++ s1.auditLogBuffer
            pendingRetry := some (retryCount + 1) }
      else
        { s1 with droppedBatches := s1.droppedBatches ++ [logsToWrite] }

/-- The buffering tail of `logRequestAudit`: push the record, then either
flush immediately (`auditLogBuffer.length >= BATCH_SIZE`) or schedule the
interval flush (`scheduleFlush`, which sets the timer if not already set). -/
def recordAudit {α : Type} (dbOk : Nat → Bool) (s : BatcherState α) (r : α) :
    BatcherState α :=
  let s' : BatcherState α := { s with auditLogBuffer := s.auditLogBuffer ++ [r] }
  if BATCH_SIZE ≤ s'.auditLogBuffer.length then
    flushStep dbOk 0 3 s'
  else
    { s' with flushTimerSet := true }

/-- The `setTimeout` retry callback of a failed flush firing:
`flushAuditLogs(retryCount + 1, maxRetries)`. -/
def retryFire {α : Type} (dbOk : Nat → Bool) (s : BatcherState α) : BatcherState α :=
  match s.pendingRetry with
  | some rc => flushStep dbOk rc 3 { s with pendingRetry := none }
  | none => s

/-- The `BATCH_INTERVAL_MS` timer of `scheduleFlush` firing: clear the timer
flag, then `flushAuditLogs()`. -/
def timerFire {α : Type} (dbOk : Nat → Bool) (s : BatcherState α) : BatcherState α :=
  if s.flushTimerSet then flushStep dbOk 0 3 { s with flushTimerSet := false }
  else s

/-- One tick of the 30s `monitoringInterval`: if the observed buffer size
exceeds `MAX_BUFFER_SIZE`, force a flush (`flushAuditLogs()`). -/
def monitorTick {α : Type} (dbOk : Nat → Bool) (s : BatcherState α) : BatcherState α :=
  if MAX_BUFFER_SIZE < s.auditLogBuffer.length then flushStep dbOk 0 3 s
  else s

/-- Storage that always succeeds. -/
def dbAlwaysOk : Nat → Bool := fun _ => true

/-- Storage that always fails. -/
def dbAlwaysFail : Nat → Bool := fun _ => false

/-! ### Lemmas about single flush/record steps -/

theorem flushStep_always_ok {α : Type} (rc mr : Nat) (s : BatcherState α)
    (hb : s.auditLogBuffer ≠ []) :
    flushStep dbAlwaysOk rc mr s =
      { s with auditLogBuffer := [], attemptIx := s.attemptIx + 1,
               failedFlushCount := 0,
               written := s.written ++ [s.auditLogBuffer] } := by
  obtain ⟨buf, ft, ffc, pr, ai, w, d⟩ := s
  simp only [flushStep, dbAlwaysOk, List.isEmpty_eq_false.mpr hb, Bool.false_eq_true,
    if_false, if_true]

theorem flushStep_fail_requeue {α : Type} (rc mr : Nat) (s : BatcherState α)
    (h : rc < mr) (hb : s.auditLogBuffer ≠ []) :
    flushStep dbAlwaysFail rc mr s =
      { s with attemptIx := s.attemptIx + 1,
               failedFlushCount := s.failedFlushCount + 1,
               pendingRetry := some (rc + 1) } := by
  obtain ⟨buf, ft, ffc, pr, ai, w, d⟩ := s
  simp only [flushStep, dbAlwaysFail, List.isEmpty_eq_false.mpr hb, Bool.false_eq_true,
    if_false, if_pos h, List.append_nil]

theorem flushStep_fail_drop {α : Type} (rc mr : Nat) (s : BatcherState α)
    (h : ¬ rc < mr) (hb : s.auditLogBuffer ≠ []) :
    flushStep dbAlwaysFail rc mr s =
      { s with auditLogBuffer := [], attemptIx := s.attemptIx + 1,
               failedFlushCount := s.failedFlushCount + 1,
               droppedBatches := s.droppedBatches ++ [s.auditLogBuffer] } := by
  obtain ⟨buf, ft, ffc, pr, ai, w, d⟩ := s
  simp only [flushStep, dbAlwaysFail, List.isEmpty_eq_false.mpr hb, Bool.false_eq_true,
    if_false, if_neg h]

/-- A failed flush that still has retries left leaves the buffer contents and
the drop log unchanged: the batch is re-queued, not lost. -/
theorem flushStep_fail_proj {α : Type} (rc mr : Nat) (s : BatcherState α)
    (h : rc < mr) :
    (flushStep dbAlwaysFail rc mr s).auditLogBuffer = s.auditLogBuffer ∧
      (flushStep dbAlwaysFail rc mr s).droppedBatches = s.droppedBatches := by
  by_cases hb : s.auditLogBuffer = []
  · simp [flushStep, hb]
  · rw [flushStep_fail_requeue rc mr s h hb]
    exact ⟨rfl, rfl⟩

/-- A flush call that still has retries left never drops a batch, whatever the
storage outcome. -/
theorem flushStep_dropped_of_lt {α : Type} (dbOk : Nat → Bool) (rc mr : Nat)
    (s : BatcherState α) (h : rc < mr) :
    (flushStep dbOk rc mr s).droppedBatches = s.droppedBatches := by
  unfold flushStep
  by_cases hb : s.auditLogBuffer.isEmpty <;>
    by_cases hok : dbOk s.attemptIx <;> simp [hb, hok, h]

theorem recordAudit_below {α : Type} (dbOk : Nat → Bool) (s : BatcherState α) (r : α)
    (h : s.auditLogBuffer.length + 1 < BATCH_SIZE) :
    recordAudit dbOk s r =
      { s with auditLogBuffer := s.auditLogBuffer ++ [r], flushTimerSet := true } := by
  unfold recordAudit
  simp only [List.length_append, List.length_singleton]
  rw [if_neg (by omega)]

theorem recordAudit_thresh {α : Type} (dbOk : Nat → Bool) (s : BatcherState α) (r : α)
    (h : BATCH_SIZE ≤ s.auditLogBuffer.length + 1) :
    recordAudit dbOk s r =
      flushStep dbOk 0 3 { s with auditLogBuffer := s.auditLogBuffer ++ [r] } := by
  unfold recordAudit
  simp only [List.length_append, List.length_singleton]
  rw [if_pos (by omega)]

/-- The buffering path of `logRequestAudit` never drops a record: the push either
stays in the buffer or is handed to a flush that still has all its retries. -/
theorem recordAudit_dropped {α : Type} (dbOk : Nat → Bool) (s : BatcherState α) (r : α) :
    (recordAudit dbOk s r).droppedBatches = s.droppedBatches := by
  by_cases h : BATCH_SIZE ≤ s.auditLogBuffer.length + 1
  · rw [recordAudit_thresh dbOk s r h]
    exact flushStep_dropped_of_lt dbOk 0 3 _ (by omega)
  · rw [recordAudit_below dbOk s r (by omega)]

/-- The monitoring tick never drops records either: it only forces a flush. -/
theorem monitorTick_dropped {α : Type} (dbOk : Nat → Bool) (s : BatcherState α) :
    (monitorTick dbOk s).droppedBatches = s.droppedBatches := by
  unfold monitorTick
  by_cases h : MAX_BUFFER_SIZE < s.auditLogBuffer.length
  · rw [if_pos h]; exact flushStep_dropped_of_lt dbOk 0 3 _ (by omega)
  · rw [if_neg h]

/-! ### Runs of consecutive `record()` calls -/

/-- Records that do not fill the buffer up to `BATCH_SIZE` just accumulate and
arm the interval timer. -/
theorem fillBelowBatch {α : Type} (dbOk : Nat → Bool) :
    ∀ (rs : List α) (s : BatcherState α), rs ≠ [] →
      s.auditLogBuffer.length + rs.length < BATCH_SIZE →
      List.foldl (recordAudit dbOk) s rs =
        { s with auditLogBuffer := s.auditLogBuffer ++ rs, flushTimerSet := true }
  | [], _, hne, _ => absurd rfl hne
  | r :: rs, s, _, hlen => by
    rw [List.foldl_cons,
      recordAudit_below dbOk s r (by simp at hlen; omega)]
    cases rs with
    | nil => simp
    | cons r' rs' =>
      rw [fillBelowBatch dbOk (r' :: rs')
        { s with auditLogBuffer := s.auditLogBuffer ++ [r], flushTimerSet := true }
        (by simp) (by simp at hlen ⊢; omega)]
      simp

/-- A run of exactly `BATCH_SIZE` records starting from an empty buffer
triggers exactly one size-based flush, which (with storage succeeding) writes
precisely that batch. -/
theorem full_block (rs : List Unit) (s : BatcherState Unit)
    (hb : s.auditLogBuffer = []) (hl : rs.length = BATCH_SIZE) :
    List.foldl (recordAudit dbAlwaysOk) s rs =
      { s with auditLogBuffer := [], flushTimerSet := true, failedFlushCount := 0,
               attemptIx := s.attemptIx + 1, written := s.written ++ [rs] } := by
  rcases List.eq_nil_or_concat' rs with hnil | ⟨L, b, rfl⟩
  · subst hnil; simp [BATCH_SIZE] at hl
  · have hL : L.length + 1 = BATCH_SIZE := by simpa using hl
    rw [List.foldl_concat]
    have hLne : L ≠ [] := by
      intro h; subst h; simp [BATCH_SIZE] at hL
    rw [fillBelowBatch dbAlwaysOk L s hLne (by simp [hb]; omega)]
    rw [recordAudit_thresh dbAlwaysOk _ b (by simp [hb]; omega)]
    rw [flushStep_always_ok 0 3 _ (by simp)]
    simp [hb]

/-- With storage succeeding, the buffer stays strictly below `BATCH_SIZE`
after every record: the size trigger flushes it as soon as it reaches 100. -/
theorem ok_fill_bound :
    ∀ (rs : List Unit) (s : BatcherState Unit),
      s.auditLogBuffer.length < BATCH_SIZE →
      (List.foldl (recordAudit dbAlwaysOk) s rs).auditLogBuffer.length < BATCH_SIZE
  | [], _, h => h
  | r :: rs, s, h => by
    rw [List.foldl_cons]
    apply ok_fill_bound rs
    by_cases hth : BATCH_SIZE ≤ s.auditLogBuffer.length + 1
    · rw [recordAudit_thresh dbAlwaysOk s r hth,
        flushStep_always_ok 0 3 _ (by simp)]
      simp [BATCH_SIZE]
    · rw [recordAudit_below dbAlwaysOk s r (by omega)]
      simp; omega

/-- With storage failing, every record stays in the buffer (failed flushes
re-queue their batch) and nothing is ever dropped by the record path. -/
theorem fail_fill :
    ∀ (rs : List Unit) (s : BatcherState Unit),
      (List.foldl (recordAudit dbAlwaysFail) s rs).auditLogBuffer =
          s.auditLogBuffer ++ rs ∧
        (List.foldl (recordAudit dbAlwaysFail) s rs).droppedBatches =
          s.droppedBatches
  | [], s => by simp
  | r :: rs, s => by
    rw [List.foldl_cons]
    have hstep :
        (recordAudit dbAlwaysFail s r).auditLogBuffer = s.auditLogBuffer ++ [r] ∧
          (recordAudit dbAlwaysFail s r).droppedBatches = s.droppedBatches := by
      by_cases hth : BATCH_SIZE ≤ s.auditLogBuffer.length + 1
      · rw [recordAudit_thresh dbAlwaysFail s r hth,
          flushStep_fail_requeue 0 3 _ (by omega) (by simp)]
        simp
      · rw [recordAudit_below dbAlwaysFail s r (by omega)]
        simp
    obtain ⟨ih1, ih2⟩ := fail_fill rs (recordAudit dbAlwaysFail s r)
    refine ⟨?_, ?_⟩
    · rw [ih1, hstep.1, List.append_assoc]; rfl
    · rw [ih2, hstep.2]

theorem timerFire_set {α : Type} (dbOk : Nat → Bool) (s : BatcherState α)
    (h : s.flushTimerSet = true) :
    timerFire dbOk s = flushStep dbOk 0 3 { s with flushTimerSet := false } := by
  unfold timerFire
  rw [if_pos h]

/-! ### Claims C6, C3, C5 -/

/-- Intermediate states of the Scenario-B run: after the first 100 records
(one size-triggered flush), after 200 records (two flushes), and after all
250 records (50 records pending, interval timer armed). -/
def scenB1 : BatcherState Unit :=
  { (initBatcher : BatcherState Unit) with auditLogBuffer := [], flushTimerSet := true, failedFlushCount := 0, attemptIx := (initBatcher : BatcherState Unit).attemptIx + 1, written := (initBatcher : BatcherState Unit).written ++ [List.replicate 100 ()] }

def scenB2 : BatcherState Unit :=
  { scenB1 with auditLogBuffer := [], flushTimerSet := true, failedFlushCount := 0, attemptIx := scenB1.attemptIx + 1, written := scenB1.written ++ [List.replicate 100 ()] }

def scenB3 : BatcherState Unit :=
  { scenB2 with auditLogBuffer := scenB2.auditLogBuffer ++ List.replicate 50 (), flushTimerSet := true }

/-- Claim C6: a flush is performed when the buffer length reaches `BATCH_SIZE`
(100) or when the batch interval elapses, whichever comes first; and in the
Scenario-B run of 250 sequentially recorded decisions with storage always
succeeding, exactly 3 batches are written, of sizes 100, 100 and 50, with no
records dropped and an empty buffer at the end. -/
theorem claim_C6_flush_triggers :
    (∀ (dbOk : Nat → Bool) (s : BatcherState Unit) (r : Unit),
        BATCH_SIZE ≤ s.auditLogBuffer.length + 1 →
          recordAudit dbOk s r =
            flushStep dbOk 0 3 { s with auditLogBuffer := s.auditLogBuffer ++ [r] }) ∧
    (∀ (dbOk : Nat → Bool) (s : BatcherState Unit) (r : Unit),
        s.auditLogBuffer.length + 1 < BATCH_SIZE →
          recordAudit dbOk s r =
            { s with auditLogBuffer := s.auditLogBuffer ++ [r], flushTimerSet := true }) ∧
    (∀ (dbOk : Nat → Bool) (s : BatcherState Unit),
        s.flushTimerSet = true →
          timerFire dbOk s = flushStep dbOk 0 3 { s with flushTimerSet := false }) ∧
    (((timerFire dbAlwaysOk
          (List.foldl (recordAudit dbAlwaysOk) initBatcher
            (List.replicate 250 ()))).written.map List.length,
        (timerFire dbAlwaysOk
          (List.foldl (recordAudit dbAlwaysOk) initBatcher
            (List.replicate 250 ()))).droppedBatches,
        (timerFire dbAlwaysOk
          (List.foldl (recordAudit dbAlwaysOk) initBatcher
            (List.replicate 250 ()))).auditLogBuffer) =
      ([100, 100, 50], ([] : List (List Unit)), ([] : List Unit))) := by
  refine ⟨fun dbOk s r h => recordAudit_thresh dbOk s r h,
    fun dbOk s r h => recordAudit_below dbOk s r h,
    fun dbOk s h => timerFire_set dbOk s h, ?_⟩
  have h250 : (List.replicate 250 () : List Unit) =
      List.replicate 100 () ++ (List.replicate 100 () ++ List.replicate 50 ()) := by
    rw [← List.replicate_add, ← List.replicate_add]
  have e1 : List.foldl (recordAudit dbAlwaysOk) initBatcher
      (List.replicate 100 ()) = scenB1 :=
    full_block (List.replicate 100 ()) initBatcher rfl
      (by simp only [List.length_replicate, BATCH_SIZE])
  have e2 : List.foldl (recordAudit dbAlwaysOk) scenB1
      (List.replicate 100 ()) = scenB2 :=
    full_block (List.replicate 100 ()) scenB1 rfl
      (by simp only [List.length_replicate, BATCH_SIZE])
  have e3 : List.foldl (recordAudit dbAlwaysOk) scenB2
      (List.replicate 50 ()) = scenB3 :=
    fillBelowBatch dbAlwaysOk (List.replicate 50 ()) scenB2
      (by simp only [ne_eq, List.replicate_eq_nil_iff]; omega)
      (by simp only [scenB2, scenB1, initBatcher, List.length_nil,
        List.length_replicate, BATCH_SIZE]; omega)
  have e4 : timerFire dbAlwaysOk scenB3 =
      { scenB3 with auditLogBuffer := [], flushTimerSet := false,
                    attemptIx := scenB3.attemptIx + 1, failedFlushCount := 0,
                    written := scenB3.written ++ [scenB3.auditLogBuffer] } := by
    rw [timerFire_set dbAlwaysOk scenB3 rfl,
      flushStep_always_ok 0 3 _
        (by simp only [scenB3, scenB2, scenB1, initBatcher, List.nil_append,
          ne_eq, List.replicate_eq_nil_iff]; omega)]
  rw [h250, List.foldl_append, List.foldl_append, e1, e2, e3, e4]
  simp only [scenB3, scenB2, scenB1, initBatcher, List.nil_append,
    List.append_nil, List.singleton_append, List.cons_append, List.map_cons,
    List.map_nil, List.length_replicate, List.length_append, List.length_cons,
    List.length_nil, Prod.mk.injEq]

/-- Witness for C6 at concrete inputs: one record below the threshold is just
buffered, the 100th record triggers a size-based flush writing the batch of
100, and the timer firing flushes a pending batch of 1. -/
theorem claim_C6_flush_triggers_witness :
    (recordAudit dbAlwaysOk (initBatcher : BatcherState Unit) ()).auditLogBuffer = [()] ∧
    (recordAudit dbAlwaysOk
        ({ initBatcher with auditLogBuffer := List.replicate 99 () } :
          BatcherState Unit) ()).written.map List.length = [100] ∧
    (timerFire dbAlwaysOk
        ({ initBatcher with flushTimerSet := true, auditLogBuffer := [()] } :
          BatcherState Unit)).written.map List.length = [1] := by
  refine ⟨?_, ?_, ?_⟩
  · rw [claim_C6_flush_triggers.2.1 dbAlwaysOk initBatcher ()
      (by simp [initBatcher, BATCH_SIZE])]
    simp [initBatcher]
  · rw [claim_C6_flush_triggers.1 dbAlwaysOk _ ()
      (by simp only [List.length_replicate, BATCH_SIZE]; omega),
      flushStep_always_ok 0 3 _
        (by simp only [ne_eq, List.append_eq_nil, List.cons_ne_nil, and_false,
          not_false_eq_true])]
    simp only [initBatcher, List.nil_append, List.map_cons, List.map_nil,
      List.length_append, List.length_replicate, List.length_cons, List.length_nil]
  · rw [claim_C6_flush_triggers.2.2.1 dbAlwaysOk _ rfl,
      flushStep_always_ok 0 3 _ (by simp)]
    simp [initBatcher]

/-- Counterexample to claim C3: with storage writes failing, 501 recorded
decisions leave 501 records in the buffer (failed flushes re-queue their
batch), so at the monitoring observation point the buffer length exceeds
`MAX_BUFFER_SIZE = 500` while nothing has been dropped — there is no
drop-oldest overflow policy and no drop counter. -/
theorem claim_C3_counterexample :
    MAX_BUFFER_SIZE <
        (monitorTick dbAlwaysFail
          (List.foldl (recordAudit dbAlwaysFail) (initBatcher : BatcherState Unit)
            (List.replicate 501 ()))).auditLogBuffer.length ∧
      (monitorTick dbAlwaysFail
          (List.foldl (recordAudit dbAlwaysFail) (initBatcher : BatcherState Unit)
            (List.replicate 501 ()))).droppedBatches = [] := by
  obtain ⟨h1, h2⟩ := fail_fill (List.replicate 501 ()) initBatcher
  have hlen : (List.foldl (recordAudit dbAlwaysFail) (initBatcher : BatcherState Unit)
      (List.replicate 501 ())).auditLogBuffer.length = 501 := by
    rw [h1]
    simp only [initBatcher, List.nil_append, List.length_replicate]
  have hmt : monitorTick dbAlwaysFail
      (List.foldl (recordAudit dbAlwaysFail) (initBatcher : BatcherState Unit)
        (List.replicate 501 ())) =
      flushStep dbAlwaysFail 0 3
        (List.foldl (recordAudit dbAlwaysFail) (initBatcher : BatcherState Unit)
          (List.replicate 501 ())) := by
    unfold monitorTick
    rw [if_pos (by rw [hlen]; simp only [MAX_BUFFER_SIZE]; omega)]
  obtain ⟨hf1, hf2⟩ := flushStep_fail_proj 0 3
    (List.foldl (recordAudit dbAlwaysFail) (initBatcher : BatcherState Unit)
      (List.replicate 501 ())) (by omega)
  refine ⟨?_, ?_⟩
  · rw [hmt, hf1, hlen]
    simp only [MAX_BUFFER_SIZE]
    omega
  · rw [hmt, hf2, h2]
    simp only [initBatcher]

/-- Claim C3 as amended: the `MAX_BUFFER_SIZE` bound only holds while storage
writes succeed (then the buffer even stays below `BATCH_SIZE`); the 30s
monitor force-flushes — it does not drop — when it observes a buffer larger
than `MAX_BUFFER_SIZE`, and neither the record path nor the monitor ever
drops records; records are lost only when a flush exhausts its retries. -/
theorem claim_C3_bounded_buffer :
    (∀ rs : List Unit,
        (List.foldl (recordAudit dbAlwaysOk) initBatcher rs).auditLogBuffer.length <
          BATCH_SIZE) ∧
    (∀ s : BatcherState Unit,
        MAX_BUFFER_SIZE < s.auditLogBuffer.length →
          monitorTick dbAlwaysOk s =
            { s with auditLogBuffer := [], attemptIx := s.attemptIx + 1,
                     failedFlushCount := 0,
                     written := s.written ++ [s.auditLogBuffer] }) ∧
    (∀ (dbOk : Nat → Bool) (s : BatcherState Unit),
        (monitorTick dbOk s).droppedBatches = s.droppedBatches) ∧
    (∀ (dbOk : Nat → Bool) (s : BatcherState Unit) (r : Unit),
        (recordAudit dbOk s r).droppedBatches = s.droppedBatches) := by
  refine ⟨?_, ?_, monitorTick_dropped, recordAudit_dropped⟩
  · intro rs
    exact ok_fill_bound rs initBatcher (by simp [initBatcher, BATCH_SIZE])
  · intro s h
    unfold monitorTick
    rw [if_pos h]
    refine flushStep_always_ok 0 3 s ?_
    intro he; rw [he] at h; simp [MAX_BUFFER_SIZE] at h

/-- Witness for the amended C3 at a concrete input: the monitor drains a
buffer of 501 records through a forced (successful) flush. -/
theorem claim_C3_bounded_buffer_witness :
    (monitorTick dbAlwaysOk
        ({ initBatcher with auditLogBuffer := List.replicate 501 () } :
          BatcherState Unit)).auditLogBuffer = [] := by
  rw [claim_C3_bounded_buffer.2.1 _
    (by simp only [List.length_replicate, MAX_BUFFER_SIZE]; omega)]

/-- Counterexample to the counter clause of claim C5: when a batch of 5 records is
lost after the 3 retries are exhausted, the only failure counter in the
module (`failedFlushCount`) has been incremented once per failed attempt —
it is 4, not the batch size 5. -/
theorem claim_C5_counterexample :
    (retryFire dbAlwaysFail (retryFire dbAlwaysFail (retryFire dbAlwaysFail
        (flushStep dbAlwaysFail 0 3
          ({ initBatcher with auditLogBuffer := List.replicate 5 () } :
            BatcherState Unit))))).droppedBatches.map List.length = [5] ∧
      (retryFire dbAlwaysFail (retryFire dbAlwaysFail (retryFire dbAlwaysFail
        (flushStep dbAlwaysFail 0 3
          ({ initBatcher with auditLogBuffer := List.replicate 5 () } :
            BatcherState Unit))))).failedFlushCount = 4 ∧
      (4 : Nat) ≠ 5 := by
  decide

/-- Intermediate state of the failed-flush retry chain: the batch `b` is back
in the buffer (re-queued at the front of the then-empty buffer), `i` insert
attempts have failed, and the `i`-th retry is scheduled. -/
def retryingState (b : List Unit) (i : Nat) : BatcherState Unit :=
  { initBatcher with auditLogBuffer := b, attemptIx := i, failedFlushCount := i, pendingRetry := some i }

/-- State after the 4th consecutive insert failure: the batch `b` has been
dropped and the buffer is empty again. -/
def droppedState (b : List Unit) : BatcherState Unit :=
  { initBatcher with auditLogBuffer := [], attemptIx := 4, failedFlushCount := 4, pendingRetry := none, droppedBatches := [b] }

/-- Claim C5 as amended: a failed batch write is re-queued and retried with
exponential backoff `min(1000·2^r, 30000)` (1s, 2s, 4s) for at most 3
retries; the 4th consecutive failure drops the batch; `failedFlushCount`
increments by 1 per failed attempt (reaching 4), not by the batch size; and
the buffer keeps accepting new records afterwards. -/
theorem claim_C5_flush_retry (b : List Unit) (hb : b ≠ []) :
    (backoffMs 0 = 1000 ∧ backoffMs 1 = 2000 ∧ backoffMs 2 = 4000 ∧
      ∀ rc : Nat, backoffMs rc ≤ 30000) ∧
    (flushStep dbAlwaysFail 0 3 { initBatcher with auditLogBuffer := b } =
      retryingState b 1) ∧
    (retryFire dbAlwaysFail (retryingState b 1) = retryingState b 2) ∧
    (retryFire dbAlwaysFail (retryingState b 2) = retryingState b 3) ∧
    (retryFire dbAlwaysFail (retryingState b 3) = droppedState b) ∧
    ((recordAudit dbAlwaysOk (droppedState b) ()).auditLogBuffer = [()]) := by
  refine ⟨⟨by decide, by decide, by decide, fun rc => Nat.min_le_right _ _⟩,
    ?_, ?_, ?_, ?_, ?_⟩
  · rw [flushStep_fail_requeue 0 3 _ (by omega) hb]
    rfl
  · rw [show retryFire dbAlwaysFail (retryingState b 1) =
        flushStep dbAlwaysFail 1 3
          { retryingState b 1 with pendingRetry := none } from rfl,
      flushStep_fail_requeue 1 3 _ (by omega) hb]
    rfl
  · rw [show retryFire dbAlwaysFail (retryingState b 2) =
        flushStep dbAlwaysFail 2 3
          { retryingState b 2 with pendingRetry := none } from rfl,
      flushStep_fail_requeue 2 3 _ (by omega) hb]
    rfl
  · rw [show retryFire dbAlwaysFail (retryingState b 3) =
        flushStep dbAlwaysFail 3 3
          { retryingState b 3 with pendingRetry := none } from rfl,
      flushStep_fail_drop 3 3 _ (by omega) hb]
    rfl
  · rw [recordAudit_below dbAlwaysOk _ ()
      (by simp [droppedState, initBatcher, BATCH_SIZE])]
    rfl

/-- Witness for the amended C5 at the concrete batch `[()]`. -/
theorem claim_C5_flush_retry_witness :
    flushStep dbAlwaysFail 0 3
        ({ initBatcher with auditLogBuffer := [()] } : BatcherState Unit) =
      retryingState [()] 1 :=
  (claim_C5_flush_retry [()] (by simp)).2.1

/-! ## Retention gate of `logRequestAudit` (lines 228-313)

`logRequestAudit` consults the cached retention value of the org before buffering:
a cached 0 discards the decision; a cache miss fires a background
`getRetentionDays` query guarded by the `inflightRetentionChecks` set and
logs anyway.  The per-org retention cache, the in-flight set and the batcher
state form an `AuditCtx`; the asynchronous completion of `getRetentionDays`
is a separate event `retentionCheckComplete` parameterised by the `orgs`
table (`store`). -/

/-- The lookup `cache.get<number>(...)` of the per-org retention key. -/
def getRetentionDaysCached (cacheRD : List (String × Nat)) (o : String) :
    Option Nat :=
  (cacheRD.find? (fun e => e.1 == o)).map (fun e => e.2)

/-- The write `cache.set(..., v, 3600)` of the per-org retention key (overwrite semantics). -/
def cacheSetRD (cacheRD : List (String × Nat)) (o : String) (v : Nat) :
    List (String × Nat) :=
  (o, v) :: cacheRD.filter (fun e => !(e.1 == o))

structure AuditCtx (α : Type) where
  cacheRD : List (String × Nat)
  inflightRetentionChecks : List String
  batcher : BatcherState α

/-- One call of `logRequestAudit(data, body)`: the retention gate followed by
the buffering tail.  `orgId` is `data.orgId`; the record `r` stands for the
row pushed to `auditLogBuffer`. -/
def logRequestAudit {α : Type} (dbOk : Nat → Bool) (ctx : AuditCtx α)
    (orgId : Option String) (r : α) : AuditCtx α :=
  match orgId with
  | some o =>
    match getRetentionDaysCached ctx.cacheRD o with
    | some 0 => ctx
    | some _ => { ctx with batcher := recordAudit dbOk ctx.batcher r }
    | none =>
      let ctx' : AuditCtx α :=
        if o ∈ ctx.inflightRetentionChecks then ctx
        else { ctx with inflightRetentionChecks := o :: ctx.inflightRetentionChecks }
      { ctx' with batcher := recordAudit dbOk ctx'.batcher r }
  | none => { ctx with batcher := recordAudit dbOk ctx.batcher r }

/-- Completion of the background `getRetentionDays(orgId)` promise: the
`finally` removes the org from the in-flight set; on success with an existing
org the value (including 0) is cached; a missing org returns 0 uncached. -/
def retentionCheckComplete {α : Type} (store : String → Option Nat)
    (ctx : AuditCtx α) (o : String) : AuditCtx α :=
  { ctx with
      cacheRD :=
        match store o with
        | none => ctx.cacheRD
        | some v => cacheSetRD ctx.cacheRD o v
      inflightRetentionChecks := ctx.inflightRetentionChecks.erase o }

/-- Total number of records held anywhere in the batcher (buffer, written
batches, dropped batches): `record()` conserves every pushed record. -/
def liveRecords {α : Type} (s : BatcherState α) : Nat :=
  s.auditLogBuffer.length + s.written.join.length + s.droppedBatches.join.length

theorem flushStep_liveRecords {α : Type} (dbOk : Nat → Bool) (rc mr : Nat)
    (s : BatcherState α) : liveRecords (flushStep dbOk rc mr s) = liveRecords s := by
  unfold flushStep liveRecords
  by_cases hb : s.auditLogBuffer.isEmpty <;>
    by_cases hok : dbOk s.attemptIx <;>
      by_cases hrc : rc < mr <;>
        simp [hb, hok, hrc, List.join_append] <;> omega

theorem recordAudit_liveRecords {α : Type} (dbOk : Nat → Bool)
    (s : BatcherState α) (r : α) :
    liveRecords (recordAudit dbOk s r) = liveRecords s + 1 := by
  unfold recordAudit
  by_cases h : BATCH_SIZE ≤ (s.auditLogBuffer ++ [r]).length
  · rw [if_pos h, flushStep_liveRecords]
    unfold liveRecords
    simp; omega
  · rw [if_neg h]
    unfold liveRecords
    simp; omega

/-- A retention store in which every org has retention disabled (0 days). -/
def c4store : String → Option Nat := fun _ => some 0

/-- Counterexample to claim C4: a tenant whose stored retention policy is 0
days (`c4store` answers 0 for every org) but whose value is not yet cached
has its decision buffered anyway — `logRequestAudit` fires the background
check and logs without waiting. -/
theorem claim_C4_counterexample :
    c4store "acme" = some 0 ∧
      (logRequestAudit dbAlwaysOk (⟨[], [], initBatcher⟩ : AuditCtx Unit)
          (some "acme") ()).batcher.auditLogBuffer = [()] ∧
      (logRequestAudit dbAlwaysOk (⟨[], [], initBatcher⟩ : AuditCtx Unit)
          (some "acme") ()).inflightRetentionChecks = ["acme"] := by
  refine ⟨rfl, ?_, ?_⟩ <;> rfl

/-- Claim C4 as amended: a decision of a 0-retention tenant is discarded
exactly when the cached value is 0; on a cache miss the decision is buffered
(with the background check fired), and once the background check completes
for a stored 0-day policy the 0 is cached, so subsequent decisions are
discarded. -/
theorem claim_C4_retention_gate :
    ∀ (dbOk : Nat → Bool) (ctx : AuditCtx Unit) (o : String) (r : Unit)
      (store : String → Option Nat),
      (getRetentionDaysCached ctx.cacheRD o = some 0 →
        logRequestAudit dbOk ctx (some o) r = ctx) ∧
      (getRetentionDaysCached ctx.cacheRD o = none →
        (logRequestAudit dbOk ctx (some o) r).batcher =
          recordAudit dbOk ctx.batcher r) ∧
      (store o = some 0 →
        getRetentionDaysCached (retentionCheckComplete store ctx o).cacheRD o =
          some 0) := by
  intro dbOk ctx o r store
  refine ⟨?_, ?_, ?_⟩
  · intro h
    simp only [logRequestAudit, h]
  · intro h
    simp only [logRequestAudit, h]
    by_cases hin : o ∈ ctx.inflightRetentionChecks <;> simp [hin]
  · intro h
    simp [retentionCheckComplete, h, cacheSetRD, getRetentionDaysCached]

/-- Witness for the amended C4: with a cached 0 the decision is dropped; with
an empty cache it is buffered; after the background check caches the stored
0, the cache answers 0. -/
theorem claim_C4_retention_gate_witness :
    (logRequestAudit dbAlwaysOk
        (⟨[("acme", 0)], [], initBatcher⟩ : AuditCtx Unit) (some "acme") () =
      (⟨[("acme", 0)], [], initBatcher⟩ : AuditCtx Unit)) ∧
    ((logRequestAudit dbAlwaysOk (⟨[], [], initBatcher⟩ : AuditCtx Unit)
        (some "acme") ()).batcher =
      recordAudit dbAlwaysOk (initBatcher : BatcherState Unit) ()) ∧
    (getRetentionDaysCached
        (retentionCheckComplete c4store (⟨[], [], initBatcher⟩ : AuditCtx Unit)
          "acme").cacheRD "acme" = some 0) :=
  ⟨(claim_C4_retention_gate dbAlwaysOk ⟨[("acme", 0)], [], initBatcher⟩ "acme" ()
      c4store).1 (by decide),
   (claim_C4_retention_gate dbAlwaysOk ⟨[], [], initBatcher⟩ "acme" ()
      c4store).2.1 (by decide),
   (claim_C4_retention_gate dbAlwaysOk ⟨[], [], initBatcher⟩ "acme" ()
      c4store).2.2 (by decide)⟩

/-- Claim C10: a decision with no `orgId` skips the retention gate entirely —
the state change is exactly the buffering tail, for every cache and in-flight
content — and the record is conserved (buffered or flushed), never discarded
by policy. -/
theorem claim_C10_no_tenant :
    ∀ (dbOk : Nat → Bool) (ctx : AuditCtx Unit) (r : Unit),
      logRequestAudit dbOk ctx none r =
          { ctx with batcher := recordAudit dbOk ctx.batcher r } ∧
        liveRecords (logRequestAudit dbOk ctx none r).batcher =
          liveRecords ctx.batcher + 1 := by
  intro dbOk ctx r
  refine ⟨rfl, ?_⟩
  show liveRecords (recordAudit dbOk ctx.batcher r) = liveRecords ctx.batcher + 1
  exact recordAudit_liveRecords dbOk ctx.batcher r

/-! ## Stampede guard on the in-flight retention checks (lines 58-62, 239-250)

The `inflightRetentionChecks : Set<string>` gates the background
`getRetentionDays` calls: an org is added only when absent, and the
`.finally()` handler removes it when the promise settles, successfully or
not.  `running` is the ghost multiset of currently-running `getRetentionDays`
computations. -/

structure GuardState where
  inflightRetentionChecks : List String
  running : List String

/-- Models `inflightRetentionChecks.add(orgId)` immediately followed by starting
`getRetentionDays(orgId)` (only reachable when the org is absent). -/
def startCheck (s : GuardState) (o : String) : GuardState :=
  { inflightRetentionChecks := o :: s.inflightRetentionChecks
    running := o :: s.running }

/-- The `.finally(() => inflightRetentionChecks.delete(orgId))` handler:
runs when the computation settles, on success and on failure alike. -/
def completeCheck (s : GuardState) (o : String) : GuardState :=
  { inflightRetentionChecks := s.inflightRetentionChecks.erase o
    running := s.running.erase o }

/-- Reachable guard states: from the empty state, a check starts only for an
org not already in the set (`if (!inflightRetentionChecks.has(orgId))`), and
any running check may complete with either outcome `ok`. -/
inductive GuardReach : GuardState → Prop
  | init : GuardReach ⟨[], []⟩
  | start (s : GuardState) (o : String) (hre : GuardReach s)
      (hnotin : o ∉ s.inflightRetentionChecks) : GuardReach (startCheck s o)
  | complete (s : GuardState) (o : String) (ok : Bool) (hre : GuardReach s)
      (hrun : o ∈ s.running) : GuardReach (completeCheck s o)

theorem guard_inflight_eq_running :
    ∀ s : GuardState, GuardReach s →
      s.inflightRetentionChecks = s.running ∧ s.running.Nodup := by
  intro s h
  induction h with
  | init => exact ⟨rfl, List.nodup_nil⟩
  | start s o hre hnotin ih =>
    obtain ⟨heq, hnd⟩ := ih
    refine ⟨by simp [startCheck, heq], ?_⟩
    simp only [startCheck]
    exact List.Nodup.cons (by rw [← heq]; exact hnotin) hnd
  | complete s o ok hre hrun ih =>
    obtain ⟨heq, hnd⟩ := ih
    exact ⟨by simp [completeCheck, heq], hnd.erase o⟩

/-- Claim C9: in every reachable guard state, an org is in the in-flight set
iff exactly one recomputation for it is running, and completion (success or
failure) removes the org from the in-flight set. -/
theorem claim_C9_stampede_guard :
    ∀ s : GuardState, GuardReach s →
      (∀ o : String,
        o ∈ s.inflightRetentionChecks ↔ s.running.count o = 1) ∧
      (∀ o : String, o ∉ (completeCheck s o).inflightRetentionChecks) := by
  intro s h
  obtain ⟨heq, hnd⟩ := guard_inflight_eq_running s h
  refine ⟨?_, ?_⟩
  · intro o
    rw [heq]
    constructor
    · intro hm
      exact List.count_eq_one_of_mem hnd hm
    · intro hc
      have : 0 < s.running.count o := by omega
      exact List.count_pos_iff_mem.mp this
  · intro o
    simp only [completeCheck]
    rw [heq] at *
    exact hnd.not_mem_erase

/-- Witness for C9 on the concrete trace `start "a"`. -/
theorem claim_C9_stampede_guard_witness :
    ("a" ∈ (startCheck ⟨[], []⟩ "a").inflightRetentionChecks ↔
      (startCheck ⟨[], []⟩ "a").running.count "a" = 1) ∧
    "a" ∉ (completeCheck (startCheck ⟨[], []⟩ "a") "a").inflightRetentionChecks :=
  ⟨(claim_C9_stampede_guard _
      (GuardReach.start _ _ GuardReach.init (by simp))).1 "a",
   (claim_C9_stampede_guard _
      (GuardReach.start _ _ GuardReach.init (by simp))).2 "a"⟩

/-! ## Retention cutoff (`calculateCutoffTimestamp`, cleanupLogs) -/

/-- Gregorian leap-year rule, as used by the proleptic UTC calendar of
`Date.UTC`. -/
def isLeapYear (y : Nat) : Bool :=
  (y % 4 == 0 && !(y % 100 == 0)) || y % 400 == 0

def daysInYear (y : Nat) : Nat := if isLeapYear y then 366 else 365

/-- Days from 1970-01-01 to Jan 1 of year `1970 + n`. -/
def daysFromEpoch : Nat → Nat
  | 0 => 0
  | n + 1 => daysFromEpoch n + daysInYear (1970 + n)

/-- Unix timestamp (seconds) of `Date.UTC(y, 0, 1, 0, 0, 0) / 1000` for a
year `y ≥ 1970`. -/
def yearStartTimestamp (y : Nat) : Int :=
  86400 * (daysFromEpoch (y - 1970) : Int)

/-- Embeds `calculateCutoffTimestamp(retentionDays)` from `server/lib/cleanupLogs.ts`,
with the ambient clock made explicit: `now = Math.floor(Date.now() / 1000)`
and `currentYear = new Date().getFullYear()`.  9001 is the retention
sentinel ("erase at the end of the year following the year of creation"). -/
def calculateCutoffTimestamp (now : Int) (currentYear : Nat)
    (retentionDays : Int) : Int :=
  if retentionDays = 9001 then yearStartTimestamp (currentYear - 1)
  else now - retentionDays * 24 * 60 * 60

structure AuditRow where
  timestamp : Int
  orgId : String
deriving Repr, DecidableEq

/-- The effect on the audit-log table of `cleanUpOldLogs(orgId, retentionDays)`
(`DELETE WHERE timestamp < cutoff AND orgId = orgId`): the rows that remain. -/
def cleanUpOldLogs (logs : List AuditRow) (orgId : String)
    (retentionDays : Int) (now : Int) (currentYear : Nat) : List AuditRow :=
  logs.filter (fun rec =>
    !(decide (rec.timestamp < calculateCutoffTimestamp now currentYear retentionDays) &&
      (rec.orgId == orgId)))

theorem sentinel_cutoff_2026 :
    ∀ now : Int, calculateCutoffTimestamp now 2026 9001 = 1735689600 := by
  intro now
  unfold calculateCutoffTimestamp
  rw [if_pos rfl]
  decide

/-- Claim C7: a non-sentinel retention of `d` days cuts off at
`now - d·86400`; the sentinel with `currentYear = 2026` cuts off at
2025-01-01T00:00:00Z (= 1735689600), so a record from 2024-12-31 is purged
and a record from 2025-01-02 is retained by the cleanup delete. -/
theorem claim_C7_retention_cutoff :
    (∀ (now : Int) (currentYear : Nat) (d : Int), d ≠ 9001 →
        calculateCutoffTimestamp now currentYear d = now - d * 86400) ∧
    (∀ now : Int, calculateCutoffTimestamp now 2026 9001 = 1735689600) ∧
    (∀ now : Int,
        cleanUpOldLogs [⟨1735603200, "acme"⟩, ⟨1735776000, "acme"⟩] "acme"
          9001 now 2026 = [⟨1735776000, "acme"⟩]) := by
  refine ⟨?_, sentinel_cutoff_2026, ?_⟩
  · intro now currentYear d hd
    unfold calculateCutoffTimestamp
    rw [if_neg hd]
    ring_nf
  · intro now
    unfold cleanUpOldLogs
    rw [sentinel_cutoff_2026 now]
    decide

/-- Witness for C7 at `d = 30`, `now = 1000`. -/
theorem claim_C7_retention_cutoff_witness :
    calculateCutoffTimestamp 1000 2026 30 = 1000 - 30 * 86400 :=
  claim_C7_retention_cutoff.1 1000 2026 30 (by decide)

/-! ## TTL cache (`server/lib/cache.ts`)

The repository instantiates the external `node-cache` library with
`stdTTL: 300`, `maxKeys: 5000`, `useClones: false`; the library itself is not
part of the repository. -/

structure CacheEntry (V : Type) where
  key : String
  value : V
  expiresAt : Nat

/-- A TTL cache: entries in insertion order (oldest first) plus the
configured capacity. -/
structure TTLCache (V : Type) where
  entries : List (CacheEntry V)
  maxKeys : Nat

/-- Modelled from the spec: the `node-cache` library backing
`server/lib/cache.ts` is not under `src/` (only its configuration is); spec
§4.1 specifies `get(key) -> value | absent` with reads past expiry behaving
as absent, pure in-memory and never failing. -/
def TTLCache.get {V : Type} (c : TTLCache V) (key : String) (now : Nat) :
    Option V :=
  match c.entries.find? (fun e => e.key == key) with
  | some e => if now < e.expiresAt then some e.value else none
  | none => none

/-- Modelled from the spec: spec §4.1 specifies `set(key, value, ttlSeconds)`
as capacity-bounded — "when exceeded, oldest-by-insertion or a configured
eviction policy removes entries before insert" — and never failing. -/
def TTLCache.set {V : Type} (c : TTLCache V) (key : String) (v : V)
    (ttl now : Nat) : TTLCache V :=
  let remaining := c.entries.filter (fun e => !(e.key == key))
  let kept := remaining.drop (remaining.length + 1 - c.maxKeys)
  { c with entries := kept ++ [⟨key, v, now + ttl⟩] }

theorem find?_append_of_none {α : Type} (p : α → Bool) (l1 l2 : List α)
    (h : ∀ x ∈ l1, p x = false) : (l1 ++ l2).find? p = l2.find? p := by
  induction l1 with
  | nil => rfl
  | cons a l ih =>
    simp only [List.cons_append, List.find?]
    rw [h a (by simp)]
    exact ih (fun x hx => h x (by simp [hx]))

/-- Claim C8: `set` never fails — for every cache within capacity the insert
succeeds (the fresh value is readable back) and the capacity bound is
preserved, entries being evicted before the insert when the capacity would be
exceeded. -/
theorem claim_C8_cache_total :
    ∀ (V : Type) (c : TTLCache V) (key : String) (v : V) (ttl now : Nat),
      1 ≤ c.maxKeys → c.entries.length ≤ c.maxKeys → 0 < ttl →
      ((c.set key v ttl now).get key now = some v ∧
        (c.set key v ttl now).entries.length ≤ c.maxKeys) := by
  intro V c key v ttl now hmax hlen httl
  constructor
  · unfold TTLCache.set TTLCache.get
    rw [find?_append_of_none]
    · simp only [List.find?]
      rw [show (((⟨key, v, now + ttl⟩ : CacheEntry V)).key == key) = true by
        simp]
      simp only [Option.some.injEq]
      rw [if_pos (by omega)]
    · intro x hx
      have hx' : x ∈ c.entries.filter (fun e => !(e.key == key)) :=
        List.mem_of_mem_drop hx
      have := (List.mem_filter.mp hx').2
      simp only [Bool.not_eq_true'] at this
      exact this
  · unfold TTLCache.set
    have h1 : (c.entries.filter (fun e => !(e.key == key))).length ≤
        c.entries.length := List.length_filter_le _ _
    simp only [List.length_append, List.length_drop, List.length_cons,
      List.length_nil]
    omega

/-- Witness for C8 at a concrete cache of capacity 1. -/
theorem claim_C8_cache_total_witness :
    ((⟨[], 1⟩ : TTLCache Nat).set "k" 7 5 0).get "k" 0 = some 7 ∧
      ((⟨[], 1⟩ : TTLCache Nat).set "k" 7 5 0).entries.length ≤ 1 :=
  claim_C8_cache_total Nat ⟨[], 1⟩ "k" 7 5 0 (by decide) (by decide) (by decide)

/-! ## Session/Authorization Resolver (`verifySession.ts`, C1)

`getResourceByDomain` (in `server/db/queries/verifySessionQueries.ts`) awaits
a storage query; a storage failure rejects the promise, which propagates to
the caller.  The query outcome is modelled as an `Except`; the feature flag
`DISABLE_SESSION_QUERIES` short-circuits to "not found". -/

inductive DbError : Type
  | unavailable : DbError
deriving Repr, DecidableEq

structure Org where
  orgId : String

structure Resource where
  resourceId : Nat
  resourceGuid : String
  fullDomain : String

structure ResourceWithAuth where
  resource : Option Resource
  pincode : Option String
  password : Option String
  headerAuth : Option String
  headerAuthExtendedCompatibility : Option String
  org : Org

/-- Embeds `getResourceByDomain(domain)`: the feature-flag short-circuit, then the
awaited joined query whose rejection propagates and whose empty result maps
to `null`. -/
def getResourceByDomain (disableSessionQueries : Bool)
    (dbLookup : Except DbError (Option ResourceWithAuth)) :
    Except DbError (Option ResourceWithAuth) :=
  if disableSessionQueries then Except.ok none
  else
    match dbLookup with
    | Except.error e => Except.error e
    | Except.ok none => Except.ok none
    | Except.ok (some row) => Except.ok (some row)

structure Decision where
  allowed : Bool
  reason : Nat

/-- Modelled from the spec: the verify-session HTTP handler
(`server/routers/badger/verifySession.ts`) is not under `src/`.  Per spec
§4.3 (step 1) and §7, a resolver error is treated as deny-by-default
(fail-closed; the spec fixes `allowed = false` but no specific reason code,
500 here), a missing resource denies with reason 201
(`RESOURCE_NOT_FOUND`), and a resolved resource continues with the rest of
the authorization pipeline (`evalAuth`: rules, auth methods). -/
def authorize (disableSessionQueries : Bool)
    (dbLookup : Except DbError (Option ResourceWithAuth))
    (evalAuth : ResourceWithAuth → Decision) : Decision :=
  match getResourceByDomain disableSessionQueries dbLookup with
  | Except.error _ => { allowed := false, reason := 500 }
  | Except.ok none => { allowed := false, reason := 201 }
  | Except.ok (some res) => evalAuth res

/-- Claim C1: when the storage layer fails during resource resolution, the
resolver propagates the error and `authorize` denies — for every feature-flag
setting and every downstream authorization pipeline, the decision has
`allowed = false`, never `allowed = true`. -/
theorem claim_C1_fail_closed :
    ∀ (disableSessionQueries : Bool) (e : DbError)
      (evalAuth : ResourceWithAuth → Decision),
      (authorize disableSessionQueries (Except.error e) evalAuth).allowed =
        false := by
  intro dsq e evalAuth
  cases dsq <;> rfl

/-! ## Redirect Policy (`verifySession.ts`, C2)

The denial redirect construction and the loop-prevention check, from the
code excerpts of `server/routers/badger/verifySession.ts` quoted in the
investigation notes of the repository (commit 99cdbed2).  Strings are modelled as
`List Char`. -/

/-- JavaScript `s.startsWith(pre)`. -/
def listStartsWith (s pre : List Char) : Bool :=
  match pre, s with
  | [], _ => true
  | _ :: _, [] => false
  | p :: pre, c :: s => c == p && listStartsWith s pre

/-- The challenge-page path `"/auth/resource/"`. -/
def CHALLENGE_PATH : List Char := "/auth/resource/".data

/-- The characters `encodeURIComponent` leaves unescaped. -/
def isUnreservedURIChar (c : Char) : Bool :=
  c.isAlphanum || c == '-' || c == '_' || c == '.' || c == '!' || c == '~' ||
    c == '*' || c == '\'' || c == '(' || c == ')'

def hexDigitChar (n : Nat) : Char :=
  if n < 10 then Char.ofNat (48 + n) else Char.ofNat (55 + n)

/-- JavaScript `encodeURIComponent` (for code points below 256; the claims
depend only on its shape, not on multi-byte escapes). -/
def encodeURIComponent : List Char → List Char
  | [] => []
  | c :: cs =>
    (if isUnreservedURIChar c then [c]
     else ['%', hexDigitChar (c.toNat / 16 % 16), hexDigitChar (c.toNat % 16)]) ++
      encodeURIComponent cs

/-- Modelled from the spec: `server/routers/badger/verifySession.ts` is not
under `src/`; this is `const isAlreadyAuthPage =
path.startsWith(...)` on the challenge prefix, as quoted in the investigation notes
(commit 99cdbed2) and spec §4.4. -/
def isAlreadyAuthPage (path : List Char) : Bool :=
  listStartsWith path CHALLENGE_PATH

/-- Modelled from the spec: the redirect construction
`` `/auth/resource/${encodeURIComponent(resource.resourceGuid)}?redirect=${encodeURIComponent(originalRequestURL)}` ``
guarded by `isAlreadyAuthPage` (no redirect when the request already targets
the challenge page), as quoted in the investigation notes and spec §4.4. -/
def redirectPath (path resourceGuid originalRequestURL : List Char) :
    Option (List Char) :=
  if isAlreadyAuthPage path then none
  else
    some (CHALLENGE_PATH ++ encodeURIComponent resourceGuid ++
      "?redirect=".data ++ encodeURIComponent originalRequestURL)

theorem listStartsWith_append (pre rest : List Char) :
    listStartsWith (pre ++ rest) pre = true := by
  induction pre with
  | nil => simp [listStartsWith]
  | cons p pre ih => simp [listStartsWith, ih]

/-- Claim C2: a denied request already on the challenge path gets no redirect;
any other denied request gets exactly the challenge prefix, the (encoded)
resource id, `?redirect=` and the URL-encoded original URL; and the policy
applied to its own output always returns no redirect, so a second redirect
parameter is never nested. -/
theorem claim_C2_redirect_idempotent :
    ∀ (path resourceGuid originalRequestURL : List Char),
      (isAlreadyAuthPage path = true →
        redirectPath path resourceGuid originalRequestURL = none) ∧
      (isAlreadyAuthPage path = false →
        redirectPath path resourceGuid originalRequestURL =
          some (CHALLENGE_PATH ++ encodeURIComponent resourceGuid ++
            "?redirect=".data ++ encodeURIComponent originalRequestURL)) ∧
      (∀ out ∈ redirectPath path resourceGuid originalRequestURL,
        ∀ guid2 url2 : List Char, redirectPath out guid2 url2 = none) := by
  intro path resourceGuid originalRequestURL
  refine ⟨?_, ?_, ?_⟩
  · intro h
    simp [redirectPath, h]
  · intro h
    simp [redirectPath, h]
  · intro out hout guid2 url2
    by_cases h : isAlreadyAuthPage path
    · simp [redirectPath, h] at hout
    · simp only [redirectPath, if_neg h, Option.mem_def, Option.some.injEq] at hout
      have hstart : isAlreadyAuthPage out = true := by
        rw [← hout]
        unfold isAlreadyAuthPage
        rw [List.append_assoc, List.append_assoc]
        exact listStartsWith_append _ _
      simp [redirectPath, hstart]

/-- Witness for C2: a request for `/x` is redirected to the challenge page
with one encoded copy of the original URL, and the policy applied to that
redirect target returns no redirect. -/
theorem claim_C2_redirect_idempotent_witness :
    (redirectPath "/x".data "g".data "https://h/p".data =
      some (CHALLENGE_PATH ++ encodeURIComponent "g".data ++
        "?redirect=".data ++ encodeURIComponent "https://h/p".data)) ∧
    redirectPath
        (CHALLENGE_PATH ++ encodeURIComponent "g".data ++
          "?redirect=".data ++ encodeURIComponent "https://h/p".data)
        "g2".data "u2".data = none := by
  have h1 := (claim_C2_redirect_idempotent "/x".data "g".data
    "https://h/p".data).2.1 (by decide)
  refine ⟨h1, ?_⟩
  exact (claim_C2_redirect_idempotent "/x".data "g".data
    "https://h/p".data).2.2 _ h1 "g2".data "u2".data

end Pangolin
